import Mathlib

/-!
Verification of the lit-html v1 → v2 directive compatibility adapter:
the legacy-part classifier/translator (`legacyPartToPart`), the directive
registry (`directives` / `isDirective` in `directive-helpers.ts`), the
`directive` factory with its plain-function and class modes
(`litNextDirective` and its per-binding-site instance cache), and the
`AsyncDirective` connectivity shim.

The embedding models JavaScript object identity with natural-number ids,
the legacy binding site's side effects (`setValue` / `commit`) as an event
trace, the `WeakMap` instance cache as a partial map keyed by the legacy
part's identity, and exceptions as an `Except`-style outcome carried next
to the (unchanged, on error) cache state.
-/

set_option autoImplicit false

namespace LitHtml

/-- Opaque runtime values flowing through the adapter: functions and plain
objects carry an identity (JavaScript reference identity), plus
non-object data. -/
inductive Value where
  | func (id : Nat)
  | obj (id : Nat)
  | str (s : String)
  | null
deriving DecidableEq, Repr

/-- The lit-html v1 `Part` subclass a legacy binding site belongs to, as
discriminated by the source's `instanceof` tests (`NodePart`, `EventPart`,
`BooleanAttributePart`, `PropertyPart`, `AttributePart`); `unknownShape`
stands for any other object the host runtime could hand over. -/
inductive LegacyKind where
  | node
  | event
  | booleanAttribute
  | property
  | attribute
  | unknownShape
deriving DecidableEq, Repr

/-- A legacy (lit-html v1) binding site, as consumed by the adapter: an
identity, its subclass tag, and the kind-specific accessors the adapter
reads (`startNode` for node parts, `element` for event/boolean-attribute
parts, `committer.element` for property/attribute parts, and the
attribute metadata `name` / `tagName` / `strings`). Node references are
modelled as node ids. -/
structure LegacyPart where
  id : Nat
  kind : LegacyKind
  startNode : Nat
  element : Nat
  committerElement : Nat
  name : String
  tagName : String
  strings : List String
deriving DecidableEq, Repr

/-- `part instanceof NodePart`. -/
def isNodePart (p : LegacyPart) : Bool :=
  match p.kind with | .node => true | _ => false

/-- `part instanceof EventPart`. -/
def isEventPart (p : LegacyPart) : Bool :=
  match p.kind with | .event => true | _ => false

/-- `part instanceof BooleanAttributePart`. -/
def isBooleanAttributePart (p : LegacyPart) : Bool :=
  match p.kind with | .booleanAttribute => true | _ => false

/-- `part instanceof PropertyPart`. -/
def isPropertyPart (p : LegacyPart) : Bool :=
  match p.kind with | .property => true | _ => false

/-- `part instanceof AttributePart` for a plain attribute part. -/
def isAttributePart (p : LegacyPart) : Bool :=
  match p.kind with | .attribute => true | _ => false

/-- The modern (lit-html v2 style) part variant produced by the
translator: `ChildPart`, `EventPart`, `BooleanAttributePart` or
`AttributePart` of `lib/parts.js`. -/
inductive NextKind where
  | child
  | event
  | booleanAttribute
  | attribute
deriving DecidableEq, Repr

/-- Modelled from the spec: the modern Part wrappers (`ChildPart`,
`EventPart`, `BooleanAttributePart`, `AttributePart` of `lib/parts.js`,
whose source is not part of this repository snapshot) each wrap exactly
one legacy binding site, retained in `legacyPart` (the field
`AsyncDirective`'s constructor reads), and expose a typed view of its
kind. -/
structure NextPart where
  kind : NextKind
  legacyPart : LegacyPart
deriving DecidableEq, Repr

/-- `legacyPartToPart` (directive.ts): converts a lit-html v1 part to a
v2-style part, testing `instanceof` in the source's order — `NodePart`,
`EventPart`, `BooleanAttributePart`, then `PropertyPart || AttributePart`
— and throwing `Unknown part type` on any other shape. -/
def legacyPartToPart (part : LegacyPart) : Except String NextPart :=
  if isNodePart part then .ok ⟨.child, part⟩
  else if isEventPart part then .ok ⟨.event, part⟩
  else if isBooleanAttributePart part then .ok ⟨.booleanAttribute, part⟩
  else if isPropertyPart part || isAttributePart part then .ok ⟨.attribute, part⟩
  else .error "Unknown part type"

/-- `typeof o === 'function'`. -/
def isFunction (v : Value) : Bool :=
  match v with | .func _ => true | _ => false

/-- The `directives` WeakMap of `directive-helpers.ts`, keyed by object
identity; modelled as the list of tagged values. -/
abbrev Registry := List Value

/-- `directives.set(d, true)`: tag a value as a directive. -/
def tag (reg : Registry) (d : Value) : Registry := d :: reg

/-- `isDirective` (directive-helpers.ts): true exactly for function
values present in the `directives` WeakMap. -/
def isDirective (reg : Registry) (o : Value) : Bool :=
  isFunction o && decide (o ∈ reg)

/-- The `PartType` constants of `directive-helpers.ts`. -/
def PartType.ATTRIBUTE : Nat := 1
/-- `PartType.CHILD`. -/
def PartType.CHILD : Nat := 2
/-- `PartType.PROPERTY`. -/
def PartType.PROPERTY : Nat := 3
/-- `PartType.BOOLEAN_ATTRIBUTE`. -/
def PartType.BOOLEAN_ATTRIBUTE : Nat := 4
/-- `PartType.EVENT`. -/
def PartType.EVENT : Nat := 5
/-- `PartType.ELEMENT`. -/
def PartType.ELEMENT : Nat := 6

/-- The `PartInfo` descriptor type of directive.ts:
`ChildPartInfo | AttributePartInfo`, the latter carrying the part type
constant, the attribute name, the owning tag name and the literal string
fragments. -/
inductive PartInfo where
  | childInfo
  | attributeInfo (type : Nat) (name : String) (tagName : String)
      (strings : List String)
deriving DecidableEq, Repr

/-- Modelled from the spec: the `PartInfo` view a modern Part (from the
missing `lib/parts.js`) exposes to a directive's constructor — the part
kind and, for attribute-like kinds, the attribute name, owning tag name
and literal string fragments of the wrapped legacy site. -/
def NextPart.describe (p : NextPart) : PartInfo :=
  match p.kind with
  | .child => .childInfo
  | .event =>
      .attributeInfo PartType.EVENT p.legacyPart.name p.legacyPart.tagName
        p.legacyPart.strings
  | .booleanAttribute =>
      .attributeInfo PartType.BOOLEAN_ATTRIBUTE p.legacyPart.name
        p.legacyPart.tagName p.legacyPart.strings
  | .attribute =>
      .attributeInfo PartType.ATTRIBUTE p.legacyPart.name p.legacyPart.tagName
        p.legacyPart.strings

/-- The descriptor a freshly translated binding site of each legacy kind
gives rise to (property and plain attribute share the attribute
translation). -/
def legacyPartDescriptor (p : LegacyPart) : PartInfo :=
  match p.kind with
  | .node => .childInfo
  | .event => .attributeInfo PartType.EVENT p.name p.tagName p.strings
  | .booleanAttribute =>
      .attributeInfo PartType.BOOLEAN_ATTRIBUTE p.name p.tagName p.strings
  | _ => .attributeInfo PartType.ATTRIBUTE p.name p.tagName p.strings

/-- A user-authored directive class: `σ` is the instance's internal
state, `construct` the constructor (receiving the part descriptor, which
`litNextDirective` passes as the modern Part itself), and `update` the
`update(part, props)` method, which may mutate instance state and
returns the value to commit (the base-class default delegates to
`render`). -/
structure DirectiveClass (σ : Type) where
  construct : NextPart → σ
  update : σ → NextPart → List Value → σ × Value

/-- The `partToInstance` WeakMap of `litNextDirective`: a partial map
from legacy-part identity to the cached (modern Part, instance state)
pair. -/
abbrev Cache (σ : Type) := Nat → Option (NextPart × σ)

/-- The empty cache: a fresh `WeakMap`. -/
def Cache.empty {σ : Type} : Cache σ := fun _ => none

/-- `WeakMap.set`: store a pair under a legacy-part identity. -/
def Cache.set {σ : Type} (c : Cache σ) (k : Nat) (v : NextPart × σ) :
    Cache σ :=
  fun q => if q = k then some v else c q

/-- An observable side effect on a legacy binding site: a `setValue` or
`commit` call, tagged with the part's identity. -/
inductive Event where
  | setValue (partId : Nat) (v : Value)
  | commit (partId : Nat)
deriving DecidableEq, Repr

/-- The result of one invocation of the generated directive function:
the outcome (normal return or thrown error), the cache afterwards
(unchanged when an error is thrown before any write), the `setValue` /
`commit` events performed on the legacy binding site, and the
descriptors passed to the class constructor during this call. -/
structure CallResult (σ : Type) where
  outcome : Except String Unit
  cache : Cache σ
  events : List Event
  constructions : List NextPart

/-- One invocation of the directive function generated by
`litNextDirective` (directive.ts): look up the legacy part in the cache;
on miss translate it, construct an instance with the modern Part and
store the pair; then call `update` and write its value back through the
legacy part's `setValue` and `commit`. Instance mutation by `update` is
reflected in the cache, modelling reference semantics. -/
def litNextDirectiveCall {σ : Type} (C : DirectiveClass σ) (cache : Cache σ)
    (props : List Value) (part : LegacyPart) : CallResult σ :=
  match cache part.id with
  | some (modernPart, inst) =>
      let upd := C.update inst modernPart props
      { outcome := .ok ()
        cache := Cache.set cache part.id (modernPart, upd.1)
        events := [.setValue part.id upd.2, .commit part.id]
        constructions := [] }
  | none =>
      match legacyPartToPart part with
      | .error e =>
          { outcome := .error e
            cache := cache
            events := []
            constructions := [] }
      | .ok modernPart =>
          let inst := C.construct modernPart
          let upd := C.update inst modernPart props
          { outcome := .ok ()
            cache := Cache.set cache part.id (modernPart, upd.1)
            events := [.setValue part.id upd.2, .commit part.id]
            constructions := [modernPart] }

/-- N consecutive renders of the same binding site: invoke the generated
directive function once per element of `propsList`, threading the cache
and accumulating events and constructor calls; a thrown error stops the
sequence. -/
def renders {σ : Type} (C : DirectiveClass σ) (part : LegacyPart)
    (cache : Cache σ) : List (List Value) → CallResult σ
  | [] => ⟨.ok (), cache, [], []⟩
  | props :: rest =>
      let r := litNextDirectiveCall C cache props part
      match r.outcome with
      | .error e => ⟨.error e, r.cache, r.events, r.constructions⟩
      | .ok () =>
          let r2 := renders C part r.cache rest
          ⟨r2.outcome, r2.cache, r.events ++ r2.events,
            r.constructions ++ r2.constructions⟩

/-- The sequence of values `update` returns across consecutive renders,
starting from instance state `s`. -/
def updateTrace {σ : Type} (C : DirectiveClass σ) (mp : NextPart) :
    σ → List (List Value) → List Value
  | _, [] => []
  | s, props :: rest =>
      (C.update s mp props).2 ::
        updateTrace C mp (C.update s mp props).1 rest

/-- The instance state after consecutive renders starting from state
`s`. -/
def updateFold {σ : Type} (C : DirectiveClass σ) (mp : NextPart) :
    σ → List (List Value) → σ
  | s, [] => s
  | s, props :: rest => updateFold C mp (C.update s mp props).1 rest

/-- The legacy-site event trace expected from committing the given
values in order: one `setValue` followed by one `commit` per value. -/
def pairTrace (pid : Nat) : List Value → List Event
  | [] => []
  | v :: vs => .setValue pid v :: .commit pid :: pairTrace pid vs

/-- The plain-function branch of `directive` (directive.ts): each
invocation of the wrapper calls the factory with the given arguments,
tags the result in the `directives` registry, and returns it unchanged.
The factory is modelled as also consuming a fresh-identity counter so
that allocation of new function objects is observable. -/
def directivePlain (factory : List Value → Nat → Value × Nat)
    (args : List Value) (reg : Registry) (fresh : Nat) :
    Value × Registry × Nat :=
  ((factory args fresh).1, tag reg (factory args fresh).1,
    (factory args fresh).2)

/-- A factory that allocates a fresh function object on every
invocation: the result is a function whose identity was not in use
before the call, and the counter moves past it. -/
def FreshAllocating (f : List Value → Nat → Value × Nat) : Prop :=
  ∀ args c, ∃ i, c ≤ i ∧ i < (f args c).2 ∧ (f args c).1 = .func i

/-- DOM connectivity environment: `Node.isConnected` for each node id. -/
abbrev Connectivity := Nat → Bool

/-- `AsyncDirective.ddGetNode` (async-directive.ts): resolve the host DOM
node from the captured legacy part — `startNode` for a `NodePart`,
`element` for an `EventPart` or `BooleanAttributePart`,
`committer.element` for a `PropertyPart` or `AttributePart`, and
`undefined` otherwise. -/
def ddGetNode (p : LegacyPart) : Option Nat :=
  if isNodePart p then some p.startNode
  else if isEventPart p then some p.element
  else if isBooleanAttributePart p then some p.element
  else if isPropertyPart p || isAttributePart p then some p.committerElement
  else none

/-- The mutable fields of an `AsyncDirective` instance: the legacy part
captured by the constructor (`ddPart`) and the `renderedYet` flag,
initially false. -/
structure AsyncDirectiveState where
  ddPart : LegacyPart
  renderedYet : Bool
deriving DecidableEq, Repr

/-- `AsyncDirective`'s constructor: captures `partInfo.legacyPart` from
the modern Part it receives as its `PartInfo`. -/
def AsyncDirective.ofPartInfo (partInfo : NextPart) : AsyncDirectiveState :=
  ⟨partInfo.legacyPart, false⟩

/-- `AsyncDirective.shouldRender`: the first call flips `renderedYet` and
allows the render; afterwards the render is refused exactly when the
host node resolves and is not connected. -/
def AsyncDirective.shouldRender (conn : Connectivity)
    (d : AsyncDirectiveState) : Bool × AsyncDirectiveState :=
  if !d.renderedYet then (true, { d with renderedYet := true })
  else
    match ddGetNode d.ddPart with
    | some n => if !conn n then (false, d) else (true, d)
    | none => (true, d)

/-- `AsyncDirective.setValue`: when `shouldRender` allows it, forward the
value through the legacy part's `setValue` then `commit`; otherwise do
nothing. -/
def AsyncDirective.setValue (conn : Connectivity) (d : AsyncDirectiveState)
    (value : Value) : AsyncDirectiveState × List Event :=
  let sr := AsyncDirective.shouldRender conn d
  if sr.1 then (sr.2, [.setValue d.ddPart.id value, .commit d.ddPart.id])
  else (sr.2, [])

end LitHtml

namespace LitHtml

/-- Looking up the key just stored. -/
theorem Cache.get_set {σ : Type} (c : Cache σ) (k : Nat) (v : NextPart × σ) :
    Cache.set c k v k = some v := by
  simp [Cache.set]

/-- A call that hits the cache reuses the cached pair: no construction,
`update` applied to the cached state and modern Part, exactly one
`setValue` / `commit` pair emitted with the updated value. -/
theorem hit_call {σ : Type} (C : DirectiveClass σ) (cache : Cache σ)
    (props : List Value) (part : LegacyPart) (mp : NextPart) (s : σ)
    (h : cache part.id = some (mp, s)) :
    litNextDirectiveCall C cache props part =
      { outcome := .ok ()
        cache := Cache.set cache part.id (mp, (C.update s mp props).1)
        events := [.setValue part.id (C.update s mp props).2, .commit part.id]
        constructions := [] } := by
  simp [litNextDirectiveCall, h]

/-- A call that misses the cache with a translatable part constructs one
instance from the translated modern Part, stores the pair, and emits one
`setValue` / `commit` pair with the updated value. -/
theorem miss_call {σ : Type} (C : DirectiveClass σ) (cache : Cache σ)
    (props : List Value) (part : LegacyPart) (mp : NextPart)
    (h0 : cache part.id = none) (hmp : legacyPartToPart part = .ok mp) :
    litNextDirectiveCall C cache props part =
      { outcome := .ok ()
        cache := Cache.set cache part.id
          (mp, (C.update (C.construct mp) mp props).1)
        events := [.setValue part.id (C.update (C.construct mp) mp props).2,
          .commit part.id]
        constructions := [mp] } := by
  simp [litNextDirectiveCall, h0, hmp]

/-- A successful translation wraps exactly the input legacy part, and its
descriptor view is the one the input's kind dictates. -/
theorem translate_ok_shape (part : LegacyPart) (mp : NextPart)
    (hmp : legacyPartToPart part = .ok mp) :
    mp.legacyPart = part ∧ NextPart.describe mp = legacyPartDescriptor part := by
  cases hk : part.kind <;>
    simp [legacyPartToPart, isNodePart, isEventPart, isBooleanAttributePart,
      isPropertyPart, isAttributePart, hk] at hmp <;>
    subst hmp <;>
    simp [NextPart.describe, legacyPartDescriptor, hk]

/-- Once a binding site has a cache entry, a whole sequence of renders
reuses it: no constructor call, one `setValue` / `commit` pair per render
carrying the successive `update` values, and the cache entry threading
the instance state through the sequence. -/
theorem renders_reuse {σ : Type} (C : DirectiveClass σ) (part : LegacyPart)
    (mp : NextPart) :
    ∀ (pl : List (List Value)) (c : Cache σ) (s : σ),
      c part.id = some (mp, s) →
      (renders C part c pl).outcome = .ok () ∧
      (renders C part c pl).events = pairTrace part.id (updateTrace C mp s pl) ∧
      (renders C part c pl).constructions = [] ∧
      (renders C part c pl).cache part.id = some (mp, updateFold C mp s pl)
  | [], c, s, h => by simp [renders, updateTrace, updateFold, pairTrace, h]
  | props :: rest, c, s, h => by
      have ih := renders_reuse C part mp rest
        (Cache.set c part.id (mp, (C.update s mp props).1))
        ((C.update s mp props).1)
        (Cache.get_set c part.id (mp, (C.update s mp props).1))
      simp [renders, hit_call C c props part mp s h, ih.1, ih.2.1, ih.2.2.1,
        ih.2.2.2, updateTrace, updateFold, pairTrace]

/-- C4: the part translator classifies a legacy binding site by its
runtime type and, for each recognized kind, produces the corresponding
modern Part variant wrapping exactly that legacy binding site (property
and plain attribute translated alike to the attribute variant); any
other shape yields the `Unknown part type` error. -/
theorem C4_classifier_by_kind (part : LegacyPart) :
    legacyPartToPart part =
      match part.kind with
      | .node => .ok ⟨.child, part⟩
      | .event => .ok ⟨.event, part⟩
      | .booleanAttribute => .ok ⟨.booleanAttribute, part⟩
      | .property => .ok ⟨.attribute, part⟩
      | .attribute => .ok ⟨.attribute, part⟩
      | .unknownShape => .error "Unknown part type" := by
  cases hp : part.kind <;>
    simp [legacyPartToPart, isNodePart, isEventPart, isBooleanAttributePart,
      isPropertyPart, isAttributePart, hp]

/-- C5: `isDirective` returns true exactly for function values that were
tagged in the registry; tagging is by identity, so of two behaviorally
identical functions of which only one was tagged, the tagged one
satisfies `isDirective` and the other does not, and every never-tagged
value fails `isDirective`. -/
theorem C5_isDirective_iff_tagged (reg : Registry) (v : Value) (i j : Nat)
    (hij : i ≠ j) (hj : Value.func j ∉ reg) :
    (isDirective reg v = true ↔ isFunction v = true ∧ v ∈ reg) ∧
    isDirective (tag reg (.func i)) (.func i) = true ∧
    isDirective (tag reg (.func i)) (.func j) = false ∧
    (v ∉ reg → isDirective reg v = false) := by
  refine ⟨?_, ?_, ?_, ?_⟩
  · simp [isDirective]
  · simp [isDirective, tag, isFunction]
  · simp [isDirective, tag, isFunction, hj]
    exact fun h => absurd h.symm hij
  · intro hv
    simp [isDirective, hv]

/-- Closed-instance check for `C5_isDirective_iff_tagged` at registry
`[func 0]`, value `func 0`, ids `1 ≠ 2`. -/
theorem C5_isDirective_iff_tagged_witness :
    ((1 : Nat) ≠ 2 ∧ Value.func 2 ∉ [Value.func 0]) ∧
    ((isDirective [Value.func 0] (.func 0) = true ↔
        isFunction (Value.func 0) = true ∧ Value.func 0 ∈ [Value.func 0]) ∧
      isDirective (tag [Value.func 0] (.func 1)) (.func 1) = true ∧
      isDirective (tag [Value.func 0] (.func 1)) (.func 2) = false ∧
      (Value.func 0 ∉ [Value.func 0] →
        isDirective [Value.func 0] (.func 0) = false)) :=
  ⟨⟨by decide, by decide⟩,
    C5_isDirective_iff_tagged [Value.func 0] (.func 0) 1 2 (by decide) (by decide)⟩

/-- A concrete legacy node (child) binding site for closed-instance
checks. -/
def sampleNodePart : LegacyPart := ⟨7, .node, 3, 0, 0, "", "", []⟩

/-- A concrete legacy attribute binding site. -/
def sampleAttributePart : LegacyPart :=
  ⟨4, .attribute, 0, 0, 11, "cls", "DIV", ["", ""]⟩

/-- A concrete legacy binding site of unrecognized shape. -/
def sampleUnknownPart : LegacyPart := ⟨9, .unknownShape, 0, 0, 0, "", "", []⟩

/-- A concrete stateful directive class: counts the renders seen so far
and commits the previous count. -/
def counterClass : DirectiveClass Nat :=
  ⟨fun _ => 0, fun s _ _ => (s + 1, .obj s)⟩

/-- A concrete directive class that counts renders and commits its first
argument. -/
def echoClass : DirectiveClass Nat :=
  ⟨fun _ => 0,
    fun s _ props => (s + 1, match props with | v :: _ => v | [] => .null)⟩

/-- C1: for a class-based directive, the first call with a fresh binding
site constructs the instance exactly once and caches the (modern Part,
instance) pair; every call that finds a cache entry performs no
construction, reuses the identical cached pair, and applies `update` to
the cached instance state, so state mutated on render N is the state
observed at the start of render N+1. -/
theorem C1_instance_constructed_once {σ : Type} (C : DirectiveClass σ)
    (cache c : Cache σ) (part : LegacyPart) (mp : NextPart) (s : σ)
    (props1 props2 : List Value)
    (h0 : cache part.id = none) (hmp : legacyPartToPart part = .ok mp)
    (hc : c part.id = some (mp, s)) :
    ((litNextDirectiveCall C cache props1 part).constructions = [mp] ∧
      (litNextDirectiveCall C cache props1 part).cache part.id =
        some (mp, (C.update (C.construct mp) mp props1).1)) ∧
    ((litNextDirectiveCall C c props2 part).constructions = [] ∧
      (litNextDirectiveCall C c props2 part).outcome = .ok () ∧
      (litNextDirectiveCall C c props2 part).cache part.id =
        some (mp, (C.update s mp props2).1)) := by
  refine ⟨⟨?_, ?_⟩, ?_, ?_, ?_⟩ <;>
    simp [miss_call C cache props1 part mp h0 hmp,
      hit_call C c props2 part mp s hc, Cache.get_set]

/-- Closed-instance check for `C1_instance_constructed_once`: the counter
directive on a concrete node part is constructed on the first call, and
a call on the cached entry reuses it, seeing the state left by the
previous render. -/
theorem C1_instance_constructed_once_witness :
    ((Cache.empty : Cache Nat) sampleNodePart.id = none ∧
      legacyPartToPart sampleNodePart = .ok ⟨.child, sampleNodePart⟩ ∧
      Cache.set (Cache.empty : Cache Nat) sampleNodePart.id
          (⟨.child, sampleNodePart⟩, 1) sampleNodePart.id =
        some (⟨.child, sampleNodePart⟩, 1)) ∧
    (((litNextDirectiveCall counterClass Cache.empty [] sampleNodePart).constructions =
        [⟨.child, sampleNodePart⟩] ∧
      (litNextDirectiveCall counterClass Cache.empty [] sampleNodePart).cache
          sampleNodePart.id = some (⟨.child, sampleNodePart⟩, 1)) ∧
    ((litNextDirectiveCall counterClass
        (Cache.set Cache.empty sampleNodePart.id (⟨.child, sampleNodePart⟩, 1))
        [] sampleNodePart).constructions = [] ∧
      (litNextDirectiveCall counterClass
        (Cache.set Cache.empty sampleNodePart.id (⟨.child, sampleNodePart⟩, 1))
        [] sampleNodePart).outcome = .ok () ∧
      (litNextDirectiveCall counterClass
        (Cache.set Cache.empty sampleNodePart.id (⟨.child, sampleNodePart⟩, 1))
        [] sampleNodePart).cache sampleNodePart.id =
        some (⟨.child, sampleNodePart⟩, 2))) :=
  ⟨⟨rfl, rfl, rfl⟩,
    C1_instance_constructed_once counterClass Cache.empty
      (Cache.set Cache.empty sampleNodePart.id (⟨.child, sampleNodePart⟩, 1))
      sampleNodePart ⟨.child, sampleNodePart⟩ 1 [] [] rfl rfl rfl⟩

/-- C2: a sequence of N ≥ 1 non-throwing renders of a class-mode
directive on one legacy binding site returns normally, emits exactly one
`setValue` (carrying the value returned by the instance's `update`)
followed by one `commit` on that legacy site per render, in order —
2N events in total — and constructs the instance once. -/
theorem C2_setValue_commit_per_render {σ : Type} (C : DirectiveClass σ)
    (cache : Cache σ) (part : LegacyPart) (mp : NextPart)
    (props : List Value) (rest : List (List Value))
    (h0 : cache part.id = none) (hmp : legacyPartToPart part = .ok mp) :
    (renders C part cache (props :: rest)).outcome = .ok () ∧
    (renders C part cache (props :: rest)).events =
      pairTrace part.id (updateTrace C mp (C.construct mp) (props :: rest)) ∧
    (renders C part cache (props :: rest)).constructions = [mp] := by
  have hre := renders_reuse C part mp rest
    (Cache.set cache part.id (mp, (C.update (C.construct mp) mp props).1))
    ((C.update (C.construct mp) mp props).1)
    (Cache.get_set cache part.id (mp, (C.update (C.construct mp) mp props).1))
  simp [renders, miss_call C cache props part mp h0 hmp, hre.1, hre.2.1,
    hre.2.2.1, updateTrace, pairTrace]

/-- Closed-instance check for `C2_setValue_commit_per_render`: the
end-to-end scenario — an echoing class directive on a concrete attribute
site rendered with `"x"` then `"y"` produces exactly the two
`setValue` / `commit` pairs carrying `"x"` and `"y"`, with one
construction. -/
theorem C2_setValue_commit_per_render_witness :
    ((Cache.empty : Cache Nat) sampleAttributePart.id = none ∧
      legacyPartToPart sampleAttributePart =
        .ok ⟨.attribute, sampleAttributePart⟩) ∧
    ((renders echoClass sampleAttributePart Cache.empty
        [[.str "x"], [.str "y"]]).outcome = .ok () ∧
      (renders echoClass sampleAttributePart Cache.empty
        [[.str "x"], [.str "y"]]).events =
        [.setValue 4 (.str "x"), .commit 4,
          .setValue 4 (.str "y"), .commit 4] ∧
      (renders echoClass sampleAttributePart Cache.empty
        [[.str "x"], [.str "y"]]).constructions =
        [⟨.attribute, sampleAttributePart⟩]) :=
  ⟨⟨rfl, rfl⟩,
    C2_setValue_commit_per_render echoClass Cache.empty sampleAttributePart
      ⟨.attribute, sampleAttributePart⟩ [.str "x"] [[.str "y"]] rfl rfl⟩

/-- C3: a legacy binding site of none of the four recognized shapes makes
the translator throw `Unknown part type`, and the class-mode directive
function propagates the error leaving the cache unchanged — no cache
entry, no event on the legacy site, no construction. -/
theorem C3_unknown_shape_error {σ : Type} (C : DirectiveClass σ)
    (cache : Cache σ) (props : List Value) (part : LegacyPart)
    (hshape : isNodePart part = false ∧ isEventPart part = false ∧
      isBooleanAttributePart part = false ∧ isPropertyPart part = false ∧
      isAttributePart part = false)
    (h0 : cache part.id = none) :
    legacyPartToPart part = .error "Unknown part type" ∧
    (litNextDirectiveCall C cache props part).outcome =
      .error "Unknown part type" ∧
    (litNextDirectiveCall C cache props part).cache = cache ∧
    (litNextDirectiveCall C cache props part).events = [] ∧
    (litNextDirectiveCall C cache props part).constructions = [] := by
  obtain ⟨h1, h2, h3, h4, h5⟩ := hshape
  have herr : legacyPartToPart part = .error "Unknown part type" := by
    simp [legacyPartToPart, h1, h2, h3, h4, h5]
  refine ⟨herr, ?_, ?_, ?_, ?_⟩ <;> simp [litNextDirectiveCall, h0, herr]

/-- Closed-instance check for `C3_unknown_shape_error` at a concrete
unrecognized binding site. -/
theorem C3_unknown_shape_error_witness :
    ((isNodePart sampleUnknownPart = false ∧
        isEventPart sampleUnknownPart = false ∧
        isBooleanAttributePart sampleUnknownPart = false ∧
        isPropertyPart sampleUnknownPart = false ∧
        isAttributePart sampleUnknownPart = false) ∧
      (Cache.empty : Cache Nat) sampleUnknownPart.id = none) ∧
    (legacyPartToPart sampleUnknownPart = .error "Unknown part type" ∧
      (litNextDirectiveCall counterClass Cache.empty [] sampleUnknownPart).outcome =
        .error "Unknown part type" ∧
      (litNextDirectiveCall counterClass Cache.empty [] sampleUnknownPart).cache =
        Cache.empty ∧
      (litNextDirectiveCall counterClass Cache.empty [] sampleUnknownPart).events =
        [] ∧
      (litNextDirectiveCall counterClass Cache.empty [] sampleUnknownPart).constructions =
        []) :=
  ⟨⟨⟨rfl, rfl, rfl, rfl, rfl⟩, rfl⟩,
    C3_unknown_shape_error counterClass Cache.empty [] sampleUnknownPart
      ⟨rfl, rfl, rfl, rfl, rfl⟩ rfl⟩

/-- C9: on a cache miss the adapter constructs the new instance with
exactly one descriptor — the modern Part translated from the legacy
site, which wraps that site and whose `PartInfo` view carries the part
kind and, for attribute-like kinds, the attribute name, owning tag name
and literal string fragments; on the ensuing cache hit no further
descriptor is constructed, so the descriptor is built once per
instantiation. -/
theorem C9_descriptor_once {σ : Type} (C : DirectiveClass σ)
    (cache : Cache σ) (part : LegacyPart) (mp : NextPart)
    (props props2 : List Value)
    (h0 : cache part.id = none) (hmp : legacyPartToPart part = .ok mp) :
    (litNextDirectiveCall C cache props part).constructions = [mp] ∧
    mp.legacyPart = part ∧
    NextPart.describe mp = legacyPartDescriptor part ∧
    (litNextDirectiveCall C (litNextDirectiveCall C cache props part).cache
      props2 part).constructions = [] := by
  obtain ⟨hwrap, hdesc⟩ := translate_ok_shape part mp hmp
  have hm := miss_call C cache props part mp h0 hmp
  refine ⟨by simp [hm], hwrap, hdesc, ?_⟩
  have hget : (litNextDirectiveCall C cache props part).cache part.id =
      some (mp, (C.update (C.construct mp) mp props).1) := by
    simp [hm, Cache.get_set]
  simp [hit_call C (litNextDirectiveCall C cache props part).cache props2 part
    mp ((C.update (C.construct mp) mp props).1) hget]

/-- Closed-instance check for `C9_descriptor_once` at the concrete
attribute site: the single descriptor wraps the site and reports the
attribute kind with name `cls`, tag `DIV`, and the string fragments. -/
theorem C9_descriptor_once_witness :
    ((Cache.empty : Cache Nat) sampleAttributePart.id = none ∧
      legacyPartToPart sampleAttributePart =
        .ok ⟨.attribute, sampleAttributePart⟩) ∧
    ((litNextDirectiveCall counterClass Cache.empty [] sampleAttributePart).constructions =
        [⟨.attribute, sampleAttributePart⟩] ∧
      NextPart.legacyPart ⟨.attribute, sampleAttributePart⟩ =
        sampleAttributePart ∧
      NextPart.describe ⟨.attribute, sampleAttributePart⟩ =
        legacyPartDescriptor sampleAttributePart ∧
      (litNextDirectiveCall counterClass
        (litNextDirectiveCall counterClass Cache.empty [] sampleAttributePart).cache
        [] sampleAttributePart).constructions = []) :=
  ⟨⟨rfl, rfl⟩,
    C9_descriptor_once counterClass Cache.empty sampleAttributePart
      ⟨.attribute, sampleAttributePart⟩ [] [] rfl rfl⟩

/-- C6: in plain-function mode, each invocation of the wrapper returns
exactly what the factory produced for the given arguments, tagged in the
registry so `isDirective` holds on it; with a fresh-allocating factory
two consecutive invocations return distinct results — no caching. -/
theorem C6_plain_mode_fresh_tagged (f : List Value → Nat → Value × Nat)
    (hf : FreshAllocating f) (args1 args2 : List Value) (reg : Registry)
    (c : Nat) (d1 d2 : Value) (reg1 reg2 : Registry) (c1 c2 : Nat)
    (h1 : directivePlain f args1 reg c = (d1, reg1, c1))
    (h2 : directivePlain f args2 reg1 c1 = (d2, reg2, c2)) :
    d1 = (f args1 c).1 ∧ d2 = (f args2 c1).1 ∧
    isDirective reg1 d1 = true ∧ isDirective reg2 d2 = true ∧
    d1 ≠ d2 := by
  simp only [directivePlain, Prod.mk.injEq] at h1 h2
  obtain ⟨hd1, hreg1, hc1⟩ := h1
  obtain ⟨hd2, hreg2, hc2⟩ := h2
  subst hd1 hreg1 hc1 hd2 hreg2 hc2
  obtain ⟨i, hci, hic, hfi⟩ := hf args1 c
  obtain ⟨j, hcj, hjc, hfj⟩ := hf args2 (f args1 c).2
  refine ⟨rfl, rfl, ?_, ?_, ?_⟩
  · rw [hfi]; simp [isDirective, tag, isFunction, hfi]
  · rw [hfj]; simp [isDirective, tag, isFunction, hfj]
  · rw [hfi, hfj]
    intro heq
    have hij : i = j := by injection heq
    omega

/-- A concrete fresh-allocating factory: returns the function with the
current counter identity and advances the counter. -/
def sampleFactory : List Value → Nat → Value × Nat :=
  fun _ c => (.func c, c + 1)

/-- Closed-instance check for `C6_plain_mode_fresh_tagged`: two
invocations of the wrapped sample factory produce distinct tagged
functions. -/
theorem C6_plain_mode_fresh_tagged_witness :
    (FreshAllocating sampleFactory ∧
      directivePlain sampleFactory [] [] 0 = (.func 0, [.func 0], 1) ∧
      directivePlain sampleFactory [] [.func 0] 1 =
        (.func 1, [.func 1, .func 0], 2)) ∧
    (Value.func 0 = (sampleFactory [] 0).1 ∧
      Value.func 1 = (sampleFactory [] 1).1 ∧
      isDirective [.func 0] (.func 0) = true ∧
      isDirective [.func 1, .func 0] (.func 1) = true ∧
      Value.func 0 ≠ Value.func 1) :=
  ⟨⟨fun _ c => ⟨c, Nat.le_refl c, Nat.lt_succ_self c, rfl⟩, rfl, rfl⟩,
    C6_plain_mode_fresh_tagged sampleFactory
      (fun _ c => ⟨c, Nat.le_refl c, Nat.lt_succ_self c, rfl⟩)
      [] [] [] 0 (.func 0) (.func 1) [.func 0] [.func 1, .func 0] 1 2
      rfl rfl⟩

/-- C7: the first `setValue` of an `AsyncDirective` instance (its
never-rendered state) always forwards the value to the legacy site's
`setValue` then `commit`, whatever the connectivity, and moves the
instance to the rendered state. -/
theorem C7_first_setValue_always_commits (conn : Connectivity)
    (d : AsyncDirectiveState) (v : Value) (h : d.renderedYet = false) :
    AsyncDirective.setValue conn d v =
      ({ d with renderedYet := true },
        [.setValue d.ddPart.id v, .commit d.ddPart.id]) := by
  simp [AsyncDirective.setValue, AsyncDirective.shouldRender, h]

/-- Closed-instance check for `C7_first_setValue_always_commits`: the
first write commits even under a connectivity map that marks every node
detached. -/
theorem C7_first_setValue_always_commits_witness :
    (AsyncDirective.ofPartInfo ⟨.child, sampleNodePart⟩).renderedYet =
        false ∧
    AsyncDirective.setValue (fun _ => false)
        (AsyncDirective.ofPartInfo ⟨.child, sampleNodePart⟩) .null =
      (⟨sampleNodePart, true⟩, [.setValue 7 .null, .commit 7]) :=
  ⟨rfl,
    C7_first_setValue_always_commits (fun _ => false)
      (AsyncDirective.ofPartInfo ⟨.child, sampleNodePart⟩) .null rfl⟩

/-- C8: for an `AsyncDirective` instance already in the rendered state,
`setValue` resolves the host node from the legacy part's kind; if that
node exists and is not connected, nothing is forwarded to the legacy
site (a silent no-op leaving the instance unchanged); if the node is
connected or no node resolves, the write is forwarded normally. -/
theorem C8_rendered_connectivity_gate (conn : Connectivity)
    (d : AsyncDirectiveState) (v : Value) (h : d.renderedYet = true) :
    (∀ n, ddGetNode d.ddPart = some n → conn n = false →
        AsyncDirective.setValue conn d v = (d, [])) ∧
    (∀ n, ddGetNode d.ddPart = some n → conn n = true →
        AsyncDirective.setValue conn d v =
          (d, [.setValue d.ddPart.id v, .commit d.ddPart.id])) ∧
    (ddGetNode d.ddPart = none →
        AsyncDirective.setValue conn d v =
          (d, [.setValue d.ddPart.id v, .commit d.ddPart.id])) := by
  refine ⟨?_, ?_, ?_⟩
  · intro n hn hc
    simp [AsyncDirective.setValue, AsyncDirective.shouldRender, h, hn, hc]
  · intro n hn hc
    simp [AsyncDirective.setValue, AsyncDirective.shouldRender, h, hn, hc]
  · intro hn
    simp [AsyncDirective.setValue, AsyncDirective.shouldRender, h, hn]

/-- Closed-instance check for `C8_rendered_connectivity_gate`: on a
rendered instance over the concrete node part (host node 3), a write is
dropped while node 3 is detached and forwarded while it is connected. -/
theorem C8_rendered_connectivity_gate_witness :
    ((AsyncDirectiveState.mk sampleNodePart true).renderedYet = true ∧
      ddGetNode sampleNodePart = some 3) ∧
    AsyncDirective.setValue (fun _ => false) ⟨sampleNodePart, true⟩ .null =
      (⟨sampleNodePart, true⟩, []) ∧
    AsyncDirective.setValue (fun _ => true) ⟨sampleNodePart, true⟩ .null =
      (⟨sampleNodePart, true⟩, [.setValue 7 .null, .commit 7]) :=
  ⟨⟨rfl, rfl⟩,
    (C8_rendered_connectivity_gate (fun _ => false) ⟨sampleNodePart, true⟩
      .null rfl).1 3 rfl rfl,
    (C8_rendered_connectivity_gate (fun _ => true) ⟨sampleNodePart, true⟩
      .null rfl).2.1 3 rfl rfl⟩

/-- C10: the connectivity gate lives only in `AsyncDirective.setValue`:
on the same detached host node, a non-throwing class-mode render call
still performs its `setValue` / `commit` pair on the legacy site
unconditionally, while an author's write through a rendered
`AsyncDirective` is dropped. -/
theorem C10_adapter_write_unconditional {σ : Type} (C : DirectiveClass σ)
    (cache : Cache σ) (props : List Value) (part : LegacyPart)
    (conn : Connectivity) (n : Nat) (v : Value)
    (hok : (litNextDirectiveCall C cache props part).outcome = .ok ())
    (hn : ddGetNode part = some n) (hconn : conn n = false) :
    (∃ w, (litNextDirectiveCall C cache props part).events =
        [.setValue part.id w, .commit part.id]) ∧
    AsyncDirective.setValue conn ⟨part, true⟩ v = (⟨part, true⟩, []) := by
  constructor
  · cases h : cache part.id with
    | some p =>
        obtain ⟨mp, s⟩ := p
        exact ⟨(C.update s mp props).2,
          by simp [hit_call C cache props part mp s h]⟩
    | none =>
        cases hm : legacyPartToPart part with
        | ok mp =>
            exact ⟨(C.update (C.construct mp) mp props).2,
              by simp [miss_call C cache props part mp h hm]⟩
        | error e =>
            exact absurd hok (by simp [litNextDirectiveCall, h, hm])
  · simp [AsyncDirective.setValue, AsyncDirective.shouldRender, hn, hconn]

/-- Closed-instance check for `C10_adapter_write_unconditional`: with the
concrete node part's host node 3 detached, the adapter's render call
still emits the `setValue` / `commit` pair while the async write is
dropped. -/
theorem C10_adapter_write_unconditional_witness :
    ((litNextDirectiveCall counterClass Cache.empty [] sampleNodePart).outcome =
        .ok () ∧
      ddGetNode sampleNodePart = some 3 ∧
      (fun (_ : Nat) => false) 3 = false) ∧
    ((∃ w, (litNextDirectiveCall counterClass Cache.empty []
          sampleNodePart).events =
        [.setValue sampleNodePart.id w, .commit sampleNodePart.id]) ∧
      AsyncDirective.setValue (fun _ => false) ⟨sampleNodePart, true⟩ .null =
        (⟨sampleNodePart, true⟩, [])) :=
  ⟨⟨rfl, rfl, rfl⟩,
    C10_adapter_write_unconditional counterClass Cache.empty []
      sampleNodePart (fun _ => false) 3 .null rfl rfl rfl⟩

end LitHtml
